import Mathlib

/-!
Verification of the AgentScope subgraph client (src/lib/subgraph.ts).

The development shallowly embeds the data-access layer of the repository:
the GraphQL where-clause builder shared by fetchAgents and fetchAgentCount,
the query templates, the metadata resolver (data:, http(s)://, ipfs:// URI
dispatch, base64 decoding, JSON parsing, normalization into the fixed
registration-file shape), and the transport error classification of
querySubgraph.  Network effects are modelled by explicit oracles: a World
record maps request URLs to optional HTTP responses (none models a network
exception), and each aggregate operation takes the upstream GraphQL
response as an argument.  Platform primitives used by the source (atob,
JSON.parse, String.prototype.startsWith) are modelled as executable Lean
functions following their standard semantics.
-/

namespace AgentScope

/-! ## JavaScript value model -/

/-- Runtime JSON values as produced by JSON.parse.  Numbers are represented
exactly as decimal mantissa times a power of ten, which suffices for
truthiness tests; JSON.parse cannot produce NaN or undefined. -/
inductive Json where
  | null
  | bool (b : Bool)
  | num (mantissa : Int) (exponent : Int)
  | str (s : String)
  | arr (elems : List Json)
  | obj (fields : List (String × Json))

/-- JavaScript truthiness of a runtime value.  Objects and arrays are always
truthy; 0 (any representation, including -0) and the empty string are falsy. -/
def Json.truthy : Json → Bool
  | .null => false
  | .bool b => b
  | .num m _ => m != 0
  | .str s => s != ""
  | .arr _ => true
  | .obj _ => true

/-- JavaScript property access on a parsed JSON value: a lookup on an object
(the last duplicate key wins, matching JSON.parse), undefined (none) on any
other non-null value.  Access on null throws and is handled at the call site. -/
def Json.getField : Json → String → Option Json
  | .obj fields, k => fields.foldl (fun acc p => if p.1 = k then some p.2 else acc) none
  | _, _ => none

/-! ## String helpers

Kernel-friendly replacements for the string primitives the source relies on:
the code below works on the character lists underlying Lean strings so that
witnesses can be checked by decide and rfl. -/

/-- Whether pat is a prefix of s, on character lists. -/
def hasPrefixC : List Char → List Char → Bool
  | [], _ => true
  | _ :: _, [] => false
  | p :: ps, c :: cs => p == c && hasPrefixC ps cs

/-- Whether pat occurs as a contiguous substring of s. -/
def containsSub (pat : List Char) : List Char → Bool
  | [] => hasPrefixC pat []
  | c :: cs => hasPrefixC pat (c :: cs) || containsSub pat cs

/-- Model of JavaScript String.prototype.startsWith. -/
def strStartsWith (s pat : String) : Bool := hasPrefixC pat.data s.data

/-- Drop the first n characters of a string. -/
def strDrop (s : String) (n : Nat) : String := String.mk (s.data.drop n)

/-- Model of JavaScript Array.prototype.join with separator ", ", as used by
conditions.join(", ") in the source. -/
def joinComma : List String → String
  | [] => ""
  | [c] => c
  | c :: cs => c ++ ", " ++ joinComma cs

/-! ## Base64 (the atob platform primitive)

WHATWG forgiving-base64 decode: strip ASCII whitespace; when the length is a
multiple of four, remove up to two trailing padding characters; fail when the
remaining length is congruent to 1 mod 4 or any character is outside the
base64 alphabet; otherwise emit one byte per eight accumulated bits. -/

/-- The six-bit value of a base64 alphabet character. -/
def base64Val (c : Char) : Option Nat :=
  if 'A' ≤ c && c ≤ 'Z' then some (c.toNat - 65)
  else if 'a' ≤ c && c ≤ 'z' then some (c.toNat - 97 + 26)
  else if '0' ≤ c && c ≤ '9' then some (c.toNat - 48 + 52)
  else if c == '+' then some 62
  else if c == '/' then some 63
  else none

/-- ASCII whitespace stripped by forgiving-base64. -/
def isB64Whitespace (c : Char) : Bool :=
  c == ' ' || c == '\t' || c == '\n' || c == '\x0c' || c == '\r'

/-- Remove up to two trailing padding characters. -/
def stripTrailingPad (cs : List Char) : List Char :=
  match cs.reverse with
  | '=' :: '=' :: rest => rest.reverse
  | '=' :: rest => rest.reverse
  | _ => cs

/-- Bit-accumulating base64 decode loop. -/
def b64Loop : List Char → Nat → Nat → List Char → Option (List Char)
  | [], _, _, out => some out.reverse
  | c :: rest, buffer, bits, out =>
    match base64Val c with
    | none => none
    | some v =>
      let buffer := buffer * 64 + v
      let bits := bits + 6
      if 8 ≤ bits then
        let bits := bits - 8
        b64Loop rest (buffer % 2 ^ bits) bits (Char.ofNat (buffer / 2 ^ bits) :: out)
      else
        b64Loop rest buffer bits out

/-- Model of the atob platform primitive (forgiving-base64 to a binary
string); none models the InvalidCharacterError the browser throws. -/
def atob (s : String) : Option String :=
  let data := s.data.filter (fun c => !isB64Whitespace c)
  let data := if data.length % 4 == 0 then stripTrailingPad data else data
  if data.length % 4 == 1 then none
  else (b64Loop data 0 0 []).map String.mk

/-! ## JSON parsing (the JSON.parse platform primitive) -/

/-- Skip JSON whitespace. -/
def jsonSkipWs : List Char → List Char
  | [] => []
  | c :: cs => if c == ' ' || c == '\t' || c == '\n' || c == '\r' then jsonSkipWs cs else c :: cs

/-- Value of a hexadecimal digit. -/
def hexVal (c : Char) : Option Nat :=
  if '0' ≤ c && c ≤ '9' then some (c.toNat - 48)
  else if 'a' ≤ c && c ≤ 'f' then some (c.toNat - 87)
  else if 'A' ≤ c && c ≤ 'F' then some (c.toNat - 55)
  else none

/-- Parse the body of a JSON string after the opening quote, handling the
escape sequences JSON.parse accepts and rejecting raw control characters. -/
def parseStringBody : List Char → List Char → Option (String × List Char)
  | [], _ => none
  | '"' :: rest, acc => some (String.mk acc.reverse, rest)
  | '\\' :: 'u' :: a :: b :: c :: d :: rest, acc =>
    (match hexVal a, hexVal b, hexVal c, hexVal d with
     | some x, some y, some z, some w =>
       parseStringBody rest (Char.ofNat (((x * 16 + y) * 16 + z) * 16 + w) :: acc)
     | _, _, _, _ => none)
  | '\\' :: e :: rest, acc =>
    (if e == '"' then parseStringBody rest ( '"' :: acc)
     else if e == '\\' then parseStringBody rest ( '\\' :: acc)
     else if e == '/' then parseStringBody rest ( '/' :: acc)
     else if e == 'b' then parseStringBody rest ( '\x08' :: acc)
     else if e == 'f' then parseStringBody rest ( '\x0c' :: acc)
     else if e == 'n' then parseStringBody rest ( '\n' :: acc)
     else if e == 'r' then parseStringBody rest ( '\r' :: acc)
     else if e == 't' then parseStringBody rest ( '\t' :: acc)
     else none)
  | c :: rest, acc =>
    if c.toNat < 32 then none else parseStringBody rest (c :: acc)

/-- Split off a run of leading decimal digits. -/
def takeDigits : List Char → List Char × List Char
  | [] => ([], [])
  | c :: cs =>
    if c.isDigit then
      let p := takeDigits cs
      (c :: p.1, p.2)
    else ([], c :: cs)

/-- Numeric value of a digit run. -/
def digitsToNat (ds : List Char) : Nat :=
  ds.foldl (fun acc c => acc * 10 + (c.toNat - 48)) 0

/-- Parse a JSON number per the JSON grammar (no leading zeros, optional
fraction and exponent), returning mantissa and decimal exponent. -/
def parseNumber (cs : List Char) : Option (Json × List Char) :=
  let signed : Bool × List Char :=
    match cs with
    | '-' :: rest => (true, rest)
    | _ => (false, cs)
  let neg := signed.1
  let intPart : Option (List Char × List Char) :=
    match signed.2 with
    | '0' :: rest => some ([ '0' ], rest)
    | c :: rest =>
      if c.isDigit && c != '0' then
        let p := takeDigits rest
        some (c :: p.1, p.2)
      else none
    | [] => none
  match intPart with
  | none => none
  | some (ids, afterInt) =>
    let fracPart : Option (List Char × List Char) :=
      match afterInt with
      | '.' :: rest =>
        let p := takeDigits rest
        if p.1.isEmpty then none else some (p.1, p.2)
      | _ => some ([], afterInt)
    match fracPart with
    | none => none
    | some (fds, afterFrac) =>
      let expPart : Option (Int × List Char) :=
        match afterFrac with
        | 'e' :: rest | 'E' :: rest =>
          let se : Bool × List Char :=
            match rest with
            | '+' :: r2 => (false, r2)
            | '-' :: r2 => (true, r2)
            | _ => (false, rest)
          let p := takeDigits se.2
          if p.1.isEmpty then none
          else some (if se.1 then -(digitsToNat p.1 : Int) else (digitsToNat p.1 : Int), p.2)
        | _ => some (0, afterFrac)
      match expPart with
      | none => none
      | some (e, rest) =>
        let mantNat := digitsToNat (ids ++ fds)
        let mant : Int := if neg then -(mantNat : Int) else (mantNat : Int)
        some (Json.num mant (e - fds.length), rest)

mutual

/-- Fuel-indexed parser for a single JSON value at the head of the input. -/
def parseValue : Nat → List Char → Option (Json × List Char)
  | 0, _ => none
  | _ + 1, 'n' :: 'u' :: 'l' :: 'l' :: rest => some (Json.null, rest)
  | _ + 1, 't' :: 'r' :: 'u' :: 'e' :: rest => some (Json.bool true, rest)
  | _ + 1, 'f' :: 'a' :: 'l' :: 's' :: 'e' :: rest => some (Json.bool false, rest)
  | _ + 1, '"' :: rest => (parseStringBody rest []).map (fun p => (Json.str p.1, p.2))
  | fuel + 1, c :: rest =>
    if c == '[' then
      match jsonSkipWs rest with
      | ']' :: r2 => some (Json.arr [], r2)
      | r2 => parseElems fuel r2 []
    else if c == '\x7b' then
      match jsonSkipWs rest with
      | '\x7d' :: r2 => some (Json.obj [], r2)
      | r2 => parseMembers fuel r2 []
    else parseNumber (c :: rest)
  | _ + 1, [] => none

/-- Parse the remaining elements of a non-empty JSON array. -/
def parseElems : Nat → List Char → List Json → Option (Json × List Char)
  | 0, _, _ => none
  | fuel + 1, cs, acc =>
    match parseValue fuel (jsonSkipWs cs) with
    | none => none
    | some (v, rest) =>
      match jsonSkipWs rest with
      | ',' :: r2 => parseElems fuel r2 (v :: acc)
      | ']' :: r2 => some (Json.arr (v :: acc).reverse, r2)
      | _ => none

/-- Parse the remaining members of a non-empty JSON object. -/
def parseMembers : Nat → List Char → List (String × Json) → Option (Json × List Char)
  | 0, _, _ => none
  | fuel + 1, cs, acc =>
    match jsonSkipWs cs with
    | '"' :: rest =>
      (match parseStringBody rest [] with
       | none => none
       | some (k, r2) =>
         match jsonSkipWs r2 with
         | ':' :: r3 =>
           (match parseValue fuel (jsonSkipWs r3) with
            | none => none
            | some (v, r4) =>
              match jsonSkipWs r4 with
              | ',' :: r5 => parseMembers fuel r5 ((k, v) :: acc)
              | '\x7d' :: r5 => some (Json.obj ((k, v) :: acc).reverse, r5)
              | _ => none)
         | _ => none)
    | _ => none

end

/-- Model of the JSON.parse platform primitive: parse one value and require
only whitespace to remain; none models the SyntaxError being thrown. -/
def jsonParse (s : String) : Option Json :=
  match parseValue (s.data.length + 1) (jsonSkipWs s.data) with
  | none => none
  | some (v, rest) => if jsonSkipWs rest == [] then some v else none

/-! ## Data model (interfaces Agent, Feedback, AgentFilters of the source)

Optional TypeScript fields become Option; fields typed string-or-null in the
source but filled from arbitrary JSON by the resolver are carried as Json
values, with Json.null for the explicit null. -/

/-- The nested registrationFile shape.  All six fields are always present in
a constructed value; absence in a source JSON is represented by Json.null. -/
structure RegistrationFile where
  name : Json
  description : Json
  image : Json
  mcpEndpoint : Json
  a2aEndpoint : Json
  supportedTrusts : Json

/-- The feedbackFile nested shape. -/
structure FeedbackFile where
  text : Option String
  capability : Option String
  skill : Option String

/-- Feedback entity as returned by the subgraph. -/
structure Feedback where
  id : String
  score : String
  tag1 : Option String
  tag2 : Option String
  clientAddress : String
  createdAt : String
  isRevoked : Bool
  feedbackFile : Option FeedbackFile

/-- Filter options of the AgentFilters interface; every field is optional. -/
structure AgentFilters where
  search : Option String
  hasReviews : Option Bool
  hasEndpoint : Option Bool

/-- Agent row as it arrives from the subgraph in the fetchAgents response
(field agentURI, before the client maps it to metadataUri). -/
structure SubgraphAgent where
  id : String
  chainId : String
  agentId : String
  owner : String
  agentURI : Option String
  createdAt : String
  updatedAt : String
  totalFeedback : String
  registrationFile : Option RegistrationFile

/-- Agent entity as returned to callers (the Agent interface). -/
structure Agent where
  id : String
  chainId : String
  agentId : String
  owner : String
  metadataUri : Option String
  createdAt : String
  updatedAt : String
  totalFeedback : String
  registrationFile : Option RegistrationFile

/-- Agent row of the fetchAgentWithFeedback response, with its embedded
feedback list. -/
structure AgentDetailRow where
  id : String
  chainId : String
  agentId : String
  owner : String
  agentURI : Option String
  createdAt : String
  updatedAt : String
  totalFeedback : String
  registrationFile : Option RegistrationFile
  feedback : Option (List Feedback)

/-- Row of the lightweight count query: only the id field is requested. -/
structure AgentIdRow where
  id : String

/-- The globalStats singleton row. -/
structure GlobalStats where
  totalAgents : String
  totalFeedback : String

/-- Data object of the fetchGlobalStats response. -/
structure GlobalStatsData where
  globalStats : GlobalStats

/-! ## Query builder (fetchAgents, lines 77-103 of the source)

Each condition string is written exactly as the template literal of the
source, with literal brace characters escaped as \x7b and \x7d. -/

/-- The search condition template with the raw search term interpolated. -/
def searchCondition (term : String) : String :=
  "\x7b registrationFile_: \x7b name_contains_nocase: \"" ++ term ++ "\" \x7d \x7d"

/-- The hasReviews condition template. -/
def hasReviewsCondition : String := "\x7b totalFeedback_gt: 0 \x7d"

/-- The hasEndpoint condition template: a boolean-OR group over the two
endpoint fields, kept in its own object. -/
def hasEndpointCondition : String :=
  "\x7b or: [\n            \x7b registrationFile_: \x7b mcpEndpoint_not: null \x7d \x7d,\n            \x7b registrationFile_: \x7b a2aEndpoint_not: null \x7d \x7d\n        ] \x7d"

/-- Conditions array built by fetchAgents: one push per JavaScript-truthy
filter field, in source order (search, hasReviews, hasEndpoint).  An
undefined filters record, an undefined field, the empty search string and
a false boolean are all falsy and push nothing. -/
def fetchAgentsConditions (filters : Option AgentFilters) : List String :=
  let conditions : List String := []
  let conditions :=
    match filters with
    | some f =>
      match f.search with
      | some s => if s != "" then conditions ++ [searchCondition s] else conditions
      | none => conditions
    | none => conditions
  let conditions :=
    match filters with
    | some f => if f.hasReviews == some true then conditions ++ [hasReviewsCondition] else conditions
    | none => conditions
  let conditions :=
    match filters with
    | some f => if f.hasEndpoint == some true then conditions ++ [hasEndpointCondition] else conditions
    | none => conditions
  conditions

/-- The whereClause string of fetchAgents: empty for no conditions, the
single condition unwrapped, otherwise a boolean-AND group. -/
def fetchAgentsWhereClause (filters : Option AgentFilters) : String :=
  let conditions := fetchAgentsConditions filters
  if conditions.length == 1 then "where: " ++ conditions.headD ""
  else if conditions.length > 1 then "where: \x7b and: [" ++ joinComma conditions ++ "] \x7d"
  else ""

/-- Conditions array built by fetchAgentCount (lines 241-256): the source
duplicates the builder of fetchAgents verbatim. -/
def fetchAgentCountConditions (filters : Option AgentFilters) : List String :=
  let conditions : List String := []
  let conditions :=
    match filters with
    | some f =>
      match f.search with
      | some s => if s != "" then conditions ++ [searchCondition s] else conditions
      | none => conditions
    | none => conditions
  let conditions :=
    match filters with
    | some f => if f.hasReviews == some true then conditions ++ [hasReviewsCondition] else conditions
    | none => conditions
  let conditions :=
    match filters with
    | some f => if f.hasEndpoint == some true then conditions ++ [hasEndpointCondition] else conditions
    | none => conditions
  conditions

/-- The whereClause string of fetchAgentCount (lines 258-263). -/
def fetchAgentCountWhereClause (filters : Option AgentFilters) : String :=
  let conditions := fetchAgentCountConditions filters
  if conditions.length == 1 then "where: " ++ conditions.headD ""
  else if conditions.length > 1 then "where: \x7b and: [" ++ joinComma conditions ++ "] \x7d"
  else ""

/-! ## Query templates -/

/-- The GraphQL query text assembled by fetchAgents (lines 105-132), with
first, skip and the where clause interpolated. -/
def fetchAgentsQuery (first skip : Int) (filters : Option AgentFilters) : String :=
  "\n    \x7b\n      agents(\n        first: " ++ toString first ++
  "\n        skip: " ++ toString skip ++
  "\n        orderBy: createdAt\n        orderDirection: desc\n        " ++
  fetchAgentsWhereClause filters ++
  "\n      ) \x7b\n        id\n        chainId\n        agentId\n        owner\n        agentURI\n        createdAt\n        updatedAt\n        totalFeedback\n        registrationFile \x7b\n          name\n          description\n          image\n          mcpEndpoint\n          a2aEndpoint\n          supportedTrusts\n        \x7d\n      \x7d\n    \x7d\n  "

/-- The GraphQL query text assembled by fetchAgentCount (lines 266-275):
only ids, with a hard limit of 1000. -/
def fetchAgentCountQuery (filters : Option AgentFilters) : String :=
  "\n    \x7b\n      agents(\n        first: 1000\n        " ++
  fetchAgentCountWhereClause filters ++
  "\n      ) \x7b\n        id\n      \x7d\n    \x7d\n  "

/-- The GraphQL query text assembled by fetchAgentWithFeedback (lines
163-205), with the agent id interpolated. -/
def agentDetailQuery (agentId : String) : String :=
  "\n    \x7b\n      agent(id: \"" ++ agentId ++
  "\") \x7b\n        id\n        chainId\n        agentId\n        agentURI\n        owner\n        createdAt\n        updatedAt\n        totalFeedback\n        registrationFile \x7b\n          name\n          description\n          image\n          mcpEndpoint\n          a2aEndpoint\n          supportedTrusts\n          ens\n          agentWallet\n        \x7d\n        feedback(\n          first: 50\n          orderBy: createdAt\n          orderDirection: desc\n          where: \x7b isRevoked: false \x7d\n        ) \x7b\n          id\n          score\n          tag1\n          tag2\n          clientAddress\n          createdAt\n          isRevoked\n          feedbackFile \x7b\n            text\n            capability\n            skill\n          \x7d\n        \x7d\n      \x7d\n    \x7d\n  "

/-! ## Metadata resolver (resolveMetadata, lines 314-352)

Network effects are an explicit oracle: World.fetch maps a request URL to
some response or to none, none modelling the fetch call throwing.  The
try/catch of the source converts every thrown error to null, so all failure
paths collapse to none. -/

/-- HTTP response as observed by resolveMetadata: the ok flag and the body
text. -/
structure FetchResponse where
  ok : Bool
  body : String

/-- The network oracle: what a fetch of each URL returns in the run being
reasoned about; none models a network failure (rejected promise). -/
structure World where
  fetch : String → Option FetchResponse

/-- Characters matched by an unflagged JavaScript regex dot: anything except
the four line terminators. -/
def regexDotChar (c : Char) : Bool :=
  c != '\n' && c != '\r' && c.toNat != 0x2028 && c.toNat != 0x2029

/-- The capture group of the source regex matched against the URI: the
mediatype is the nonempty run before the first semicolon, which must be
followed by the literal base64 marker and a nonempty payload of
non-line-terminator characters. -/
def splitFirstSemi : List Char → Option (List Char × List Char)
  | [] => none
  | c :: cs =>
    if c == ';' then some ([], cs)
    else (splitFirstSemi cs).map (fun p => (c :: p.1, p.2))

/-- The payload captured by the data-URI regex of the source, or none when
the regex does not match. -/
def dataUriBase64Payload (uri : String) : Option String :=
  if strStartsWith uri "data:" then
    match splitFirstSemi (strDrop uri 5).data with
    | none => none
    | some (mediatype, afterSemi) =>
      if mediatype.isEmpty then none
      else if hasPrefixC "base64,".data afterSemi then
        let payload := afterSemi.drop 7
        if !payload.isEmpty && payload.all regexDotChar then some (String.mk payload)
        else none
      else none
  else none

/-- Map a fetch outcome to the body the source reads: none on network
failure or a non-success status, the body text otherwise. -/
def fetchBody : Option FetchResponse → Option String
  | none => none
  | some r => if r.ok then some r.body else none

/-- Normalization step of resolveMetadata (lines 341-348): every field of
the fixed shape is the source field when truthy and the explicit null
otherwise.  Property access on the JSON value null throws a TypeError that
the surrounding try/catch turns into null, hence the none case. -/
def normalizeMetadata : Json → Option RegistrationFile
  | .null => none
  | m =>
    some
      { name := jsOr (m.getField "name")
        description := jsOr (m.getField "description")
        image := jsOr (m.getField "image")
        mcpEndpoint := jsOr (m.getField "mcpEndpoint")
        a2aEndpoint := jsOr (m.getField "a2aEndpoint")
        supportedTrusts := jsOr (m.getField "supportedTrusts") }
where
  /-- JavaScript expression x or-else null: the value when truthy, the
  explicit null when the field is absent or falsy. -/
  jsOr : Option Json → Json
    | some v => if v.truthy then v else Json.null
    | none => Json.null

/-- Tail of resolveMetadata shared by all scheme branches: parse the body
text obtained (or already failed) by the scheme dispatch, then normalize. -/
def parseAndNormalize : Option String → Option RegistrationFile
  | none => none
  | some jsonData =>
    match jsonParse jsonData with
    | none => none
    | some metadata => normalizeMetadata metadata

/-- resolveMetadata: ordered dispatch on the URI scheme, fetch or decode of
the body, JSON parse, then normalization.  Every failure (regex mismatch,
atob error, network failure, non-success status, parse error, unknown
scheme) yields none, the model of the null the source returns.  The ipfs
branch replaces the first occurrence of the scheme prefix, which under the
branch guard is exactly dropping the first seven characters, and routes
through the fixed public gateway. -/
def resolveMetadata (w : World) (uri : String) : Option RegistrationFile :=
  parseAndNormalize
    (if strStartsWith uri "data:" then
      match dataUriBase64Payload uri with
      | none => none
      | some payload => atob payload
    else if strStartsWith uri "http://" || strStartsWith uri "https://" then
      fetchBody (w.fetch uri)
    else if strStartsWith uri "ipfs://" then
      fetchBody (w.fetch ("https://ipfs.io/ipfs/" ++ strDrop uri 7))
    else none)

/-! ## Transport (querySubgraph, lines 361-379) and aggregate operations

The upstream GraphQL response is passed in as data: ok flag, status code,
the optional errors array (as its list of messages) and the typed data
object.  Except String carries the thrown error message. -/

/-- Parsed HTTP response of the subgraph endpoint, typed by the data shape
the calling operation expects. -/
structure GraphQLHttpResponse (α : Type) where
  ok : Bool
  status : Nat
  errors : Option (List String)
  data : α

/-- querySubgraph: non-success status throws with the status code in the
message; a present errors array throws with the first message (an empty
errors array is still truthy in JavaScript, and indexing it throws a
TypeError, modelled by the fixed message below); otherwise the data object
is returned. -/
def querySubgraph {α : Type} (r : GraphQLHttpResponse α) : Except String α :=
  if !r.ok then .error ("Subgraph request failed: " ++ toString r.status)
  else
    match r.errors with
    | some (m :: _) => .error ("GraphQL error: " ++ m)
    | some [] => .error "TypeError: cannot read property message of undefined"
    | none => .ok r.data

/-- Per-agent enrichment closure of fetchAgents (lines 138-150): when the
indexer supplied no registration file and the agent URI is truthy, the
resolver output is used; metadataUri is filled from agentURI. -/
def enrichAgent (w : World) (a : SubgraphAgent) : Agent :=
  let registrationFile :=
    match a.registrationFile, a.agentURI with
    | none, some uri => if uri != "" then resolveMetadata w uri else none
    | rf, _ => rf
  { id := a.id
    chainId := a.chainId
    agentId := a.agentId
    owner := a.owner
    metadataUri := a.agentURI
    createdAt := a.createdAt
    updatedAt := a.updatedAt
    totalFeedback := a.totalFeedback
    registrationFile := registrationFile }

/-- fetchAgents: transport, then the order-preserving enrichment join over
the page.  first, skip and filters shape only the query text; the upstream
answer for that query is the response argument. -/
def fetchAgents (w : World) (first skip : Int) (filters : Option AgentFilters)
    (r : GraphQLHttpResponse (List SubgraphAgent)) : Except String (List Agent) :=
  (querySubgraph r).map (fun agents => agents.map (enrichAgent w))

/-- fetchAgentCount: transport, then the length of the returned id list. -/
def fetchAgentCount (filters : Option AgentFilters)
    (r : GraphQLHttpResponse (List AgentIdRow)) : Except String Nat :=
  (querySubgraph r).map (fun agents => agents.length)

/-- fetchAgentWithFeedback: transport, then the not-found check, the same
registration-file fallback as fetchAgents, and the feedback list with the
or-else-empty default of the source. -/
def fetchAgentWithFeedback (w : World) (agentId : String)
    (r : GraphQLHttpResponse (Option AgentDetailRow)) :
    Except String (Option Agent × List Feedback) :=
  (querySubgraph r).map (fun data =>
    match data with
    | none => (none, [])
    | some agent =>
      let registrationFile :=
        match agent.registrationFile, agent.agentURI with
        | none, some uri => if uri != "" then resolveMetadata w uri else none
        | rf, _ => rf
      (some
        { id := agent.id
          chainId := agent.chainId
          agentId := agent.agentId
          owner := agent.owner
          metadataUri := agent.agentURI
          createdAt := agent.createdAt
          updatedAt := agent.updatedAt
          totalFeedback := agent.totalFeedback
          registrationFile := registrationFile },
        agent.feedback.getD []))

/-- fetchGlobalStats: transport, then the globalStats projection. -/
def fetchGlobalStats (r : GraphQLHttpResponse GlobalStatsData) :
    Except String GlobalStats :=
  (querySubgraph r).map (fun data => data.globalStats)

/-! ## Activity of the three filters, as the specification words them -/

/-- Whether the search filter is active: a present, nonempty search term. -/
def searchActive : Option AgentFilters → Bool
  | some f =>
    (match f.search with
     | some s => s != ""
     | none => false)
  | none => false

/-- The search term used when the search filter is active. -/
def searchTerm : Option AgentFilters → String
  | some f => f.search.getD ""
  | none => ""

/-- Whether the hasReviews filter is active. -/
def reviewsActive : Option AgentFilters → Bool
  | some f => f.hasReviews == some true
  | none => false

/-- Whether the hasEndpoint filter is active. -/
def endpointActive : Option AgentFilters → Bool
  | some f => f.hasEndpoint == some true
  | none => false

/-- The list of conditions of the active filters as the specification
describes it: exactly one condition per active filter, in the fixed order
search, hasReviews, hasEndpoint, and nothing else. -/
def activeConditions (f : Option AgentFilters) : List String :=
  (if searchActive f then [searchCondition (searchTerm f)] else []) ++
  (if reviewsActive f then [hasReviewsCondition] else []) ++
  (if endpointActive f then [hasEndpointCondition] else [])

/-! ## Helper lemmas -/

/-- A prefix of a list is a prefix of any right extension. -/
theorem hasPrefixC_append (p a b : List Char) (h : hasPrefixC p a = true) :
    hasPrefixC p (a ++ b) = true := by
  induction p generalizing a with
  | nil => simp [hasPrefixC]
  | cons x xs ih =>
    cases a with
    | nil => simp [hasPrefixC] at h
    | cons y ys =>
      simp [hasPrefixC] at h ⊢
      exact ⟨h.1, ih ys h.2⟩

/-- A substring of a list occurs in any right extension. -/
theorem containsSub_append_right (p a b : List Char) (h : containsSub p a = true) :
    containsSub p (a ++ b) = true := by
  induction a with
  | nil =>
    cases p with
    | nil => cases b <;> simp [containsSub, hasPrefixC]
    | cons x xs => simp [containsSub, hasPrefixC] at h
  | cons c cs ih =>
    simp only [containsSub, Bool.or_eq_true] at h ⊢
    rcases h with h | h
    · exact Or.inl (hasPrefixC_append p (c :: cs) b h)
    · exact Or.inr (ih h)

/-- A substring of a list occurs in any left extension. -/
theorem containsSub_append_left (p a b : List Char) (h : containsSub p b = true) :
    containsSub p (a ++ b) = true := by
  induction a with
  | nil => simpa using h
  | cons c cs ih => simpa [containsSub] using Or.inr ih

/-- Builder output is exactly the list of conditions of the active filters:
checked by exhausting the truthiness cases of the three filter fields. -/
theorem fetchAgentsConditions_eq_activeConditions (f : Option AgentFilters) :
    fetchAgentsConditions f = activeConditions f := by
  rcases f with _ | ⟨s, hr, he⟩
  · rfl
  · rcases s with _ | s <;> rcases hr with _ | b1 <;> rcases he with _ | b2 <;>
      simp only [fetchAgentsConditions, activeConditions, searchActive, reviewsActive,
        endpointActive, searchTerm, Option.getD] <;>
      (try cases b1) <;> (try cases b2) <;> (first | rfl | simp)

/-- C1: for every combination of the three filters, the conditions array of
fetchAgents holds exactly the conditions of the active filters; with zero
active filters no where clause is emitted, a single condition is emitted
unwrapped with no AND-wrapper, and two or more conditions are wrapped in a
boolean-AND group containing exactly those conditions. -/
theorem fetchAgents_whereClause_filter_cases (f : Option AgentFilters) :
    fetchAgentsConditions f = activeConditions f ∧
    (fetchAgentsConditions f = [] → fetchAgentsWhereClause f = "") ∧
    (∀ c, fetchAgentsConditions f = [c] → fetchAgentsWhereClause f = "where: " ++ c) ∧
    (2 ≤ (fetchAgentsConditions f).length →
      fetchAgentsWhereClause f =
        "where: \x7b and: [" ++ joinComma (fetchAgentsConditions f) ++ "] \x7d") := by
  refine ⟨fetchAgentsConditions_eq_activeConditions f, ?_, ?_, ?_⟩
  · intro h
    simp [fetchAgentsWhereClause, h]
  · intro c h
    simp [fetchAgentsWhereClause, h]
  · intro h
    rcases hcs : fetchAgentsConditions f with _ | ⟨a, _ | ⟨b, rest⟩⟩
    · rw [hcs] at h; simp at h
    · rw [hcs] at h; simp at h
    · simp [fetchAgentsWhereClause, hcs]

/-- Witness for C1: search together with hasReviews produces the AND-wrapped
group. -/
theorem fetchAgents_whereClause_filter_cases_witness :
    fetchAgentsWhereClause (some ⟨some "bot", some true, none⟩) =
      "where: \x7b and: [" ++
        joinComma (fetchAgentsConditions (some ⟨some "bot", some true, none⟩)) ++ "] \x7d" :=
  (fetchAgents_whereClause_filter_cases (some ⟨some "bot", some true, none⟩)).2.2.2 (by decide)

/-- C10: fetchAgentCount builds character-for-character the same conditions,
in the same order, and the same where clause as fetchAgents, for every
filter record; the duplicated builder code of the two functions is
definitionally equal. -/
theorem fetchAgentCount_whereClause_eq_fetchAgents (f : Option AgentFilters) :
    fetchAgentCountConditions f = fetchAgentsConditions f ∧
    fetchAgentCountWhereClause f = fetchAgentsWhereClause f :=
  ⟨rfl, rfl⟩


/-- Concrete world whose every fetch fails, used by witnesses. -/
def emptyWorld : World := ⟨fun _ => none⟩

/-- Every successful resolution factors through the normalization of some
parsed, non-null JSON value. -/
theorem parseAndNormalize_some (jd : Option String) (rf : RegistrationFile)
    (h : parseAndNormalize jd = some rf) :
    ∃ m, m ≠ Json.null ∧ normalizeMetadata m = some rf := by
  rcases jd with _ | s
  · simp [parseAndNormalize] at h
  · simp only [parseAndNormalize] at h
    rcases hm : jsonParse s with _ | m
    · rw [hm] at h; simp at h
    · rw [hm] at h
      refine ⟨m, ?_, h⟩
      rintro rfl
      simp [normalizeMetadata] at h

/-- C2: resolveMetadata is a total function into an optional
registration-file object: a data URI with a malformed or missing base64
section, an HTTP(S) or IPFS fetch that fails on the network or returns a
non-success status, a body that is not valid JSON, and a URI with an
unrecognized scheme all yield null, and no case throws. -/
theorem resolveMetadata_total_null_on_failures (w : World) (uri : String) :
    (resolveMetadata w uri = none ∨ ∃ rf, resolveMetadata w uri = some rf) ∧
    (strStartsWith uri "data:" = true → dataUriBase64Payload uri = none →
      resolveMetadata w uri = none) ∧
    (∀ p, strStartsWith uri "data:" = true → dataUriBase64Payload uri = some p →
      atob p = none → resolveMetadata w uri = none) ∧
    (strStartsWith uri "data:" = false →
      (strStartsWith uri "http://" = true ∨ strStartsWith uri "https://" = true) →
      w.fetch uri = none → resolveMetadata w uri = none) ∧
    (∀ resp, strStartsWith uri "data:" = false →
      (strStartsWith uri "http://" = true ∨ strStartsWith uri "https://" = true) →
      w.fetch uri = some resp → resp.ok = false → resolveMetadata w uri = none) ∧
    (∀ resp, strStartsWith uri "data:" = false →
      (strStartsWith uri "http://" = true ∨ strStartsWith uri "https://" = true) →
      w.fetch uri = some resp → resp.ok = true → jsonParse resp.body = none →
      resolveMetadata w uri = none) ∧
    (strStartsWith uri "data:" = false → strStartsWith uri "http://" = false →
      strStartsWith uri "https://" = false → strStartsWith uri "ipfs://" = true →
      w.fetch ("https://ipfs.io/ipfs/" ++ strDrop uri 7) = none →
      resolveMetadata w uri = none) ∧
    (∀ resp, strStartsWith uri "data:" = false → strStartsWith uri "http://" = false →
      strStartsWith uri "https://" = false → strStartsWith uri "ipfs://" = true →
      w.fetch ("https://ipfs.io/ipfs/" ++ strDrop uri 7) = some resp →
      (resp.ok = false ∨ jsonParse resp.body = none) →
      resolveMetadata w uri = none) ∧
    (strStartsWith uri "data:" = false → strStartsWith uri "http://" = false →
      strStartsWith uri "https://" = false → strStartsWith uri "ipfs://" = false →
      resolveMetadata w uri = none) := by
  refine ⟨?_, ?_, ?_, ?_, ?_, ?_, ?_, ?_, ?_⟩
  · rcases h : resolveMetadata w uri with _ | rf
    · exact Or.inl rfl
    · exact Or.inr ⟨rf, rfl⟩
  · intro h1 h2
    simp [resolveMetadata, h1, h2, parseAndNormalize]
  · intro p h1 h2 h3
    simp [resolveMetadata, h1, h2, h3, parseAndNormalize]
  · intro h1 h2 h3
    rcases h2 with h2 | h2 <;>
      simp [resolveMetadata, h1, h2, h3, parseAndNormalize, fetchBody]
  · intro resp h1 h2 h3 h4
    rcases h2 with h2 | h2 <;>
      simp [resolveMetadata, h1, h2, h3, h4, parseAndNormalize, fetchBody]
  · intro resp h1 h2 h3 h4 h5
    rcases h2 with h2 | h2 <;>
      simp [resolveMetadata, h1, h2, h3, h4, h5, parseAndNormalize, fetchBody]
  · intro h1 h2 h3 h4 h5
    simp [resolveMetadata, h1, h2, h3, h4, h5, parseAndNormalize, fetchBody]
  · intro resp h1 h2 h3 h4 h5 h6
    rcases h6 with h6 | h6
    · simp [resolveMetadata, h1, h2, h3, h4, h5, h6, parseAndNormalize, fetchBody]
    · cases hok : resp.ok <;>
        simp [resolveMetadata, h1, h2, h3, h4, h5, h6, hok, parseAndNormalize, fetchBody]
  · intro h1 h2 h3 h4
    simp [resolveMetadata, h1, h2, h3, h4, parseAndNormalize]

/-- Witness for C2: an unrecognized scheme resolves to null. -/
theorem resolveMetadata_total_null_on_failures_witness :
    resolveMetadata emptyWorld "ftp://example.com/x" = none :=
  (resolveMetadata_total_null_on_failures emptyWorld "ftp://example.com/x").2.2.2.2.2.2.2.2
    (by decide) (by decide) (by decide) (by decide)



/-- C3: every object successfully decoded by resolveMetadata is normalized
into the fixed six-field shape in which each of name, description, image,
mcpEndpoint, a2aEndpoint and supportedTrusts that is absent or falsy in the
source JSON is the explicit null value, and the input with just name X
yields name X and null for the five other fields. -/
theorem resolveMetadata_normalizes_to_fixed_shape :
    (∀ (w : World) (uri : String) (rf : RegistrationFile),
      resolveMetadata w uri = some rf →
      ∃ m, m ≠ Json.null ∧ normalizeMetadata m = some rf) ∧
    (∀ (m : Json) (rf : RegistrationFile), normalizeMetadata m = some rf →
      rf = ⟨normalizeMetadata.jsOr (m.getField "name"),
            normalizeMetadata.jsOr (m.getField "description"),
            normalizeMetadata.jsOr (m.getField "image"),
            normalizeMetadata.jsOr (m.getField "mcpEndpoint"),
            normalizeMetadata.jsOr (m.getField "a2aEndpoint"),
            normalizeMetadata.jsOr (m.getField "supportedTrusts")⟩) ∧
    (∀ v : Option Json,
      (v = none ∨ ∃ x, v = some x ∧ x.truthy = false) →
      normalizeMetadata.jsOr v = Json.null) ∧
    normalizeMetadata (Json.obj [("name", Json.str "X")]) =
      some ⟨Json.str "X", Json.null, Json.null, Json.null, Json.null, Json.null⟩ := by
  refine ⟨?_, ?_, ?_, by rfl⟩
  · intro w uri rf h
    exact parseAndNormalize_some _ _ h
  · intro m rf h
    cases m <;> simp [normalizeMetadata] at h <;> exact h.symm
  · intro v hv
    rcases hv with rfl | ⟨x, rfl, hx⟩
    · rfl
    · simp [normalizeMetadata.jsOr, hx]

/-- Witness for C3: the decoded example factors through normalization. -/
theorem resolveMetadata_normalizes_to_fixed_shape_witness :
    ∃ m, m ≠ Json.null ∧ normalizeMetadata m =
      some ⟨Json.str "X", Json.null, Json.null, Json.null, Json.null, Json.null⟩ :=
  resolveMetadata_normalizes_to_fixed_shape.1 emptyWorld
    "data:application/json;base64,eyJuYW1lIjoiWCJ9" _ (by rfl)

/-- C4: on every URI starting with data:, resolveMetadata ignores the
network and follows the regex-marker, base64-decode, JSON-parse pipeline:
a missing base64 marker or a malformed encoding yields null, and the
documented example data URI yields the name-X registration file. -/
theorem resolveMetadata_dataUri_decode (w : World) (uri : String)
    (h : strStartsWith uri "data:" = true) :
    resolveMetadata w uri = parseAndNormalize
      (match dataUriBase64Payload uri with
       | none => none
       | some payload => atob payload) ∧
    (dataUriBase64Payload uri = none → resolveMetadata w uri = none) ∧
    (∀ p, dataUriBase64Payload uri = some p → atob p = none →
      resolveMetadata w uri = none) ∧
    resolveMetadata w "data:application/json;base64,eyJuYW1lIjoiWCJ9" =
      some ⟨Json.str "X", Json.null, Json.null, Json.null, Json.null, Json.null⟩ := by
  refine ⟨?_, ?_, ?_, by rfl⟩
  · simp [resolveMetadata, h]
  · intro h2
    simp [resolveMetadata, h, h2, parseAndNormalize]
  · intro p h2 h3
    simp [resolveMetadata, h, h2, h3, parseAndNormalize]

/-- Witness for C4: the documented base64 data URI decodes end to end. -/
theorem resolveMetadata_dataUri_decode_witness :
    resolveMetadata emptyWorld "data:application/json;base64,eyJuYW1lIjoiWCJ9" =
      some ⟨Json.str "X", Json.null, Json.null, Json.null, Json.null, Json.null⟩ :=
  (resolveMetadata_dataUri_decode emptyWorld
    "data:application/json;base64,eyJuYW1lIjoiWCJ9" (by decide)).2.2.2



/-- C5: the fetchAgentCount query requests at most 1000 identifiers (the
literal first: 1000 appears in the query for every filter) and the count is
the cardinality of the returned set, so when the upstream returns the first
1000 matches the reported count is at most 1000, and a filter matching 1000
or more agents reports exactly 1000. -/
theorem fetchAgentCount_saturates_at_1000 (f : Option AgentFilters)
    (matching : List AgentIdRow) (r : GraphQLHttpResponse (List AgentIdRow))
    (hok : r.ok = true) (herr : r.errors = none)
    (hdata : r.data = matching.take 1000) :
    containsSub "first: 1000".data (fetchAgentCountQuery f).data = true ∧
    fetchAgentCount f r = .ok ((matching.take 1000).length) ∧
    (matching.take 1000).length ≤ 1000 ∧
    (1000 ≤ matching.length → fetchAgentCount f r = .ok 1000) := by
  refine ⟨?_, ?_, List.length_take_le 1000 matching, ?_⟩
  · simp only [fetchAgentCountQuery, String.data_append, List.append_assoc]
    exact containsSub_append_right _ _ _ (by decide)
  · simp [fetchAgentCount, querySubgraph, hok, herr, hdata, Except.map]
  · intro hlen
    have h2 : (matching.take 1000).length = 1000 := by
      rw [List.length_take]
      exact Nat.min_eq_left hlen
    simp [fetchAgentCount, querySubgraph, hok, herr, hdata, Except.map, h2]

/-- Witness for C5: a concrete two-element id list is counted exactly. -/
theorem fetchAgentCount_saturates_at_1000_witness :
    fetchAgentCount none ⟨true, 200, none, ([⟨"11155111:1"⟩, ⟨"11155111:2"⟩] : List AgentIdRow).take 1000⟩ =
      .ok (([⟨"11155111:1"⟩, ⟨"11155111:2"⟩] : List AgentIdRow).take 1000).length :=
  (fetchAgentCount_saturates_at_1000 none [⟨"11155111:1"⟩, ⟨"11155111:2"⟩]
    ⟨true, 200, none, ([⟨"11155111:1"⟩, ⟨"11155111:2"⟩] : List AgentIdRow).take 1000⟩
    rfl rfl rfl).2.1

/-- C6: when the upstream returns no agent for the requested id,
fetchAgentWithFeedback returns the pair of a null agent and an empty
feedback list, and does not throw. -/
theorem fetchAgentWithFeedback_not_found (w : World) (agentId : String)
    (r : GraphQLHttpResponse (Option AgentDetailRow))
    (hok : r.ok = true) (herr : r.errors = none) (hdata : r.data = none) :
    fetchAgentWithFeedback w agentId r = .ok (none, []) := by
  simp [fetchAgentWithFeedback, querySubgraph, hok, herr, hdata, Except.map]

/-- Witness for C6: a concrete null-agent response maps to the not-found
pair. -/
theorem fetchAgentWithFeedback_not_found_witness :
    fetchAgentWithFeedback emptyWorld "11155111:999"
      (⟨true, 200, none, none⟩ : GraphQLHttpResponse (Option AgentDetailRow)) =
      .ok (none, []) :=
  fetchAgentWithFeedback_not_found emptyWorld "11155111:999" _ rfl rfl rfl

/-- C7: querySubgraph classifies every response: a non-success HTTP
response throws an error carrying the status code, an HTTP success whose
body contains a nonempty GraphQL errors array throws an error carrying the
first reported message, and otherwise the data object is returned; these
errors propagate unchanged, with no retry, through all four aggregate
operations. -/
theorem querySubgraph_error_classification :
    (∀ (α : Type) (r : GraphQLHttpResponse α), r.ok = false →
      querySubgraph r = .error ("Subgraph request failed: " ++ toString r.status)) ∧
    (∀ (α : Type) (r : GraphQLHttpResponse α) (m : String) (ms : List String),
      r.ok = true → r.errors = some (m :: ms) →
      querySubgraph r = .error ("GraphQL error: " ++ m)) ∧
    (∀ (α : Type) (r : GraphQLHttpResponse α), r.ok = true → r.errors = none →
      querySubgraph r = .ok r.data) ∧
    (∀ (w : World) (first skip : Int) (f : Option AgentFilters)
        (r : GraphQLHttpResponse (List SubgraphAgent)) (e : String),
      querySubgraph r = .error e → fetchAgents w first skip f r = .error e) ∧
    (∀ (f : Option AgentFilters) (r : GraphQLHttpResponse (List AgentIdRow)) (e : String),
      querySubgraph r = .error e → fetchAgentCount f r = .error e) ∧
    (∀ (w : World) (agentId : String) (r : GraphQLHttpResponse (Option AgentDetailRow))
        (e : String),
      querySubgraph r = .error e → fetchAgentWithFeedback w agentId r = .error e) ∧
    (∀ (r : GraphQLHttpResponse GlobalStatsData) (e : String),
      querySubgraph r = .error e → fetchGlobalStats r = .error e) := by
  refine ⟨?_, ?_, ?_, ?_, ?_, ?_, ?_⟩
  · intro α r h
    simp [querySubgraph, h]
  · intro α r m ms hok herr
    simp [querySubgraph, hok, herr]
  · intro α r hok herr
    simp [querySubgraph, hok, herr]
  · intro w first skip f r e h
    simp [fetchAgents, h, Except.map]
  · intro f r e h
    simp [fetchAgentCount, h, Except.map]
  · intro w agentId r e h
    simp [fetchAgentWithFeedback, h, Except.map]
  · intro r e h
    simp [fetchGlobalStats, h, Except.map]

/-- Witness for C7: a concrete 500 response throws the status-carrying
error, which propagates through fetchAgents. -/
theorem querySubgraph_error_classification_witness :
    querySubgraph (⟨false, 500, none, ([] : List SubgraphAgent)⟩ :
        GraphQLHttpResponse (List SubgraphAgent)) =
      .error ("Subgraph request failed: " ++ toString (500 : Nat)) ∧
    fetchAgents emptyWorld 24 0 none
      (⟨false, 500, none, ([] : List SubgraphAgent)⟩ :
        GraphQLHttpResponse (List SubgraphAgent)) =
      .error ("Subgraph request failed: " ++ toString (500 : Nat)) :=
  ⟨querySubgraph_error_classification.1 (List SubgraphAgent) ⟨false, 500, none, []⟩ rfl,
   querySubgraph_error_classification.2.2.2.1 emptyWorld 24 0 none
     ⟨false, 500, none, []⟩ _
     (querySubgraph_error_classification.1 (List SubgraphAgent) ⟨false, 500, none, []⟩ rfl)⟩



set_option maxRecDepth 16384 in
/-- C8: the fetchAgentWithFeedback query requests at most 50 feedback
entries ordered by createdAt descending with an isRevoked: false filter,
and when the upstream honors that filter the returned feedback list
contains no revoked entry and at most 50 entries. -/
theorem fetchAgentWithFeedback_excludes_revoked (w : World) (agentId : String)
    (r : GraphQLHttpResponse (Option AgentDetailRow)) (row : AgentDetailRow)
    (db : List Feedback)
    (hok : r.ok = true) (herr : r.errors = none) (hdata : r.data = some row)
    (hfb : row.feedback = some ((db.filter (fun fb => !fb.isRevoked)).take 50)) :
    containsSub "first: 50".data (agentDetailQuery agentId).data = true ∧
    containsSub "orderBy: createdAt\n          orderDirection: desc".data
      (agentDetailQuery agentId).data = true ∧
    containsSub "where: \x7b isRevoked: false \x7d".data
      (agentDetailQuery agentId).data = true ∧
    (∃ a, fetchAgentWithFeedback w agentId r =
      .ok (some a, (db.filter (fun fb => !fb.isRevoked)).take 50)) ∧
    (∀ fb ∈ (db.filter (fun fb => !fb.isRevoked)).take 50, fb.isRevoked = false) ∧
    ((db.filter (fun fb => !fb.isRevoked)).take 50).length ≤ 50 := by
  refine ⟨?_, ?_, ?_, ?_, ?_, List.length_take_le 50 _⟩
  · simp only [agentDetailQuery, String.data_append, List.append_assoc]
    exact containsSub_append_left _ _ _ (containsSub_append_left _ _ _ (by decide))
  · simp only [agentDetailQuery, String.data_append, List.append_assoc]
    exact containsSub_append_left _ _ _ (containsSub_append_left _ _ _ (by decide))
  · simp only [agentDetailQuery, String.data_append, List.append_assoc]
    exact containsSub_append_left _ _ _ (containsSub_append_left _ _ _ (by decide))
  · refine ⟨⟨row.id, row.chainId, row.agentId, row.owner, row.agentURI,
      row.createdAt, row.updatedAt, row.totalFeedback,
      match row.registrationFile, row.agentURI with
      | none, some uri => if uri != "" then resolveMetadata w uri else none
      | rf, _ => rf⟩, ?_⟩
    simp [fetchAgentWithFeedback, querySubgraph, hok, herr, hdata, hfb, Except.map]
  · intro fb hmem
    have h1 : fb ∈ db.filter (fun fb => !fb.isRevoked) := List.mem_of_mem_take hmem
    have h2 := (List.mem_filter.mp h1).2
    simpa using h2

/-- Witness for C8: a concrete row whose feedback already satisfies the
filter passes through unchanged. -/
theorem fetchAgentWithFeedback_excludes_revoked_witness :
    ∃ a, fetchAgentWithFeedback emptyWorld "11155111:1"
      (⟨true, 200, none,
        some ⟨"11155111:1", "11155111", "1", "0xabc", none, "0", "0", "0", none,
          some ((([] : List Feedback).filter (fun fb => !fb.isRevoked)).take 50)⟩⟩ :
        GraphQLHttpResponse (Option AgentDetailRow)) =
      .ok (some a, (([] : List Feedback).filter (fun fb => !fb.isRevoked)).take 50) :=
  (fetchAgentWithFeedback_excludes_revoked emptyWorld "11155111:1" _ _ []
    rfl rfl rfl rfl).2.2.2.1

/-- C9: the enrichment join of fetchAgents preserves the upstream page
order position by position, the resolver result is used exactly for agents
lacking a decoded registration file but possessing a truthy metadata URI,
and the output at each position depends only on the row at that position,
so a changed or failed resolution for one agent leaves every other
position unchanged. -/
theorem fetchAgents_enrichment_order_and_independence :
    (∀ (w : World) (first skip : Int) (f : Option AgentFilters)
        (r : GraphQLHttpResponse (List SubgraphAgent)) (page : List Agent),
      fetchAgents w first skip f r = .ok page →
      ∀ i : Nat, page[i]? = (r.data[i]?).map (enrichAgent w)) ∧
    (∀ (w : World) (a : SubgraphAgent) (uri : String),
      a.registrationFile = none → a.agentURI = some uri → uri ≠ "" →
      (enrichAgent w a).registrationFile = resolveMetadata w uri) ∧
    (∀ (w : World) (a : SubgraphAgent),
      (a.registrationFile ≠ none ∨ a.agentURI = none ∨ a.agentURI = some "") →
      (enrichAgent w a).registrationFile = a.registrationFile) ∧
    (∀ (w : World) (agents : List SubgraphAgent) (i j : Nat) (a2 : SubgraphAgent),
      j ≠ i →
      ((agents.set i a2).map (enrichAgent w))[j]? = (agents.map (enrichAgent w))[j]?) := by
  refine ⟨?_, ?_, ?_, ?_⟩
  · intro w first skip f r page h i
    rcases hq : querySubgraph r with e | d
    · simp [fetchAgents, hq, Except.map] at h
    · have hd : d = r.data := by
        unfold querySubgraph at hq
        rcases hok : r.ok with _ | _
        · simp [hok] at hq
        · rcases herr : r.errors with _ | (_ | ⟨m, ms⟩) <;> simp [hok, herr] at hq <;>
            exact hq.symm
      have hpage : page = r.data.map (enrichAgent w) := by
        simp [fetchAgents, hq, hd, Except.map] at h
        exact h.symm
      rw [hpage, List.getElem?_map]
  · intro w a uri h1 h2 h3
    simp [enrichAgent, h1, h2, h3]
  · intro w a h
    rcases ha : a.registrationFile with _ | rf
    · rcases h with h | h | h
      · exact absurd ha h
      · simp [enrichAgent, ha, h]
      · simp [enrichAgent, ha, h]
    · rcases hu : a.agentURI with _ | u <;> simp [enrichAgent, ha, hu]
  · intro w agents i j a2 hne
    rw [List.getElem?_map, List.getElem?_map, List.getElem?_set_ne (fun hh => hne hh.symm)]

/-- Witness for C9: the positional correspondence at index zero of an
empty page. -/
theorem fetchAgents_enrichment_order_and_independence_witness :
    ([] : List Agent)[0]? =
      ((⟨true, 200, none, []⟩ : GraphQLHttpResponse (List SubgraphAgent)).data[0]?).map
        (enrichAgent emptyWorld) :=
  fetchAgents_enrichment_order_and_independence.1 emptyWorld 24 0 none
    ⟨true, 200, none, []⟩ [] rfl 0

end AgentScope
